import Mathlib

/-!
Verification of the speech-to-text recording controller.

This file embeds the trigger state machine, the key-listener event loop of
`key_listener.py`, the transcription dispatch client of `speech_to_text.py`,
and the request handler of `stt_server.py`, and proves the stated properties
of the system against these embeddings.
-/

namespace STT

/-- Key transition kinds: down, up, or auto-repeat (`keystate` 1, 0, 2). -/
inductive Transition
  | down
  | up
  | rep
deriving DecidableEq, Repr

/-- A timestamped key event as delivered to the trigger state machine. -/
structure KeyEvent where
  keycode : String
  transition : Transition
  timestamp : ℚ
deriving DecidableEq, Repr

/-- Policy bound to a trigger key. -/
inductive TriggerPolicy
  | hold
  | doubleTap
  | unregistered
deriving DecidableEq, Repr

/-- Static configuration: keycode-to-policy binding and double-tap threshold. -/
structure TriggerConfig where
  policy : String → TriggerPolicy
  threshold : ℚ

/-- Command emitted by the trigger state machine for each event. -/
inductive Cmd
  | start
  | stop
  | ignore
deriving DecidableEq, Repr

/-- State of the trigger machine: the active recording key (if any), the
per-key recorded last-release timestamps, and the set of keys with an
"open" (unreleased) first press. -/
structure TMState where
  recording : Option String
  lastRelease : List (String × ℚ)
  openPress : List String
deriving DecidableEq, Repr

/-- Look up the recorded last-release timestamp of a key. -/
def lookupRelease (s : TMState) (k : String) : Option ℚ :=
  (s.lastRelease.find? (fun p => p.1 == k)).map Prod.snd

/-- Record the last-release timestamp of a key. -/
def setRelease (s : TMState) (k : String) (t : ℚ) : TMState :=
  { s with lastRelease := (k, t) :: s.lastRelease.filter (fun p => p.1 != k) }

/-- Clear the recorded last-release timestamp of a key. -/
def clearRelease (s : TMState) (k : String) : TMState :=
  { s with lastRelease := s.lastRelease.filter (fun p => p.1 != k) }

/-- Modelled from the spec: the `KeyListenerLogic.handle_event` trigger state
machine that `test_key_logic.py` imports from `key_listener` is not present
under `src/`; this definition follows the rules of spec section 4.1 verbatim:
repeats are discarded; while `Recording(k)` only an up event of `k` stops;
otherwise events dispatch per the key's configured policy. -/
def handle (cfg : TriggerConfig) (s : TMState) (e : KeyEvent) : Cmd × TMState :=
  if e.transition = Transition.rep then (Cmd.ignore, s)
  else
    match s.recording with
    | some k =>
      if e.keycode = k ∧ e.transition = Transition.up then
        (Cmd.stop, { s with recording := none })
      else
        (Cmd.ignore, s)
    | none =>
      match cfg.policy e.keycode, e.transition with
      | TriggerPolicy.unregistered, _ => (Cmd.ignore, s)
      | TriggerPolicy.hold, Transition.down =>
          (Cmd.start, { s with recording := some e.keycode })
      | TriggerPolicy.doubleTap, Transition.down =>
          match lookupRelease s e.keycode with
          | some r =>
              if e.timestamp - r ≤ cfg.threshold then
                (Cmd.start, { clearRelease s e.keycode with recording := some e.keycode })
              else
                (Cmd.ignore, { s with openPress := e.keycode :: s.openPress })
          | none => (Cmd.ignore, { s with openPress := e.keycode :: s.openPress })
      | TriggerPolicy.doubleTap, Transition.up =>
          if s.openPress.contains e.keycode then
            (Cmd.ignore,
              { setRelease s e.keycode e.timestamp with
                  openPress := s.openPress.filter (fun x => x != e.keycode) })
          else
            (Cmd.ignore, s)
      | _, _ => (Cmd.ignore, s)

/-- Initial state of the trigger machine: Idle, no timers. -/
def initTM : TMState := ⟨none, [], []⟩

/-- Run the trigger machine over a sequence of events, returning the final state. -/
def runTM (cfg : TriggerConfig) (s : TMState) : List KeyEvent → TMState
  | [] => s
  | e :: es => runTM cfg (handle cfg s e).2 es

/-- Number of active recording sessions in a state. -/
def activeSessions (s : TMState) : Nat :=
  match s.recording with
  | none => 0
  | some _ => 1

/-- Canonical key-to-policy binding exercised by `test_key_logic.py`:
F16 is a Hold trigger, left Meta and left Ctrl are DoubleTap triggers. -/
def canonicalPolicy (k : String) : TriggerPolicy :=
  if k = "KEY_F16" then TriggerPolicy.hold
  else if k = "KEY_LEFTMETA" ∨ k = "KEY_LEFTCTRL" then TriggerPolicy.doubleTap
  else TriggerPolicy.unregistered

/-- Canonical configuration with the 0.5s double-tap threshold. -/
def canonicalConfig : TriggerConfig := ⟨canonicalPolicy, mkRat 1 2⟩

/-- Three-event double-tap probe: down at `t1`, up at `t2`, down at `t3`,
returning the command and state after the third event. -/
def tapSeq (cfg : TriggerConfig) (k : String) (s0 : TMState) (t1 t2 t3 : ℚ) :
    Cmd × TMState :=
  handle cfg
    (handle cfg (handle cfg s0 ⟨k, Transition.down, t1⟩).2 ⟨k, Transition.up, t2⟩).2
    ⟨k, Transition.down, t3⟩

theorem handle_other_key_noop (cfg : TriggerConfig) (s : TMState) (e : KeyEvent) (k : String)
    (hrec : s.recording = some k) (hne : e.keycode ≠ k) :
    handle cfg s e = (Cmd.ignore, s) := by
  obtain ⟨rec, lr, op⟩ := s
  obtain rfl : rec = some k := hrec
  unfold handle
  by_cases h1 : e.transition = Transition.rep
  · simp [h1]
  · simp only [if_neg h1]
    rw [if_neg]
    rintro ⟨h, -⟩
    exact hne h

theorem handle_no_start_while_recording (cfg : TriggerConfig) (s : TMState) (e : KeyEvent)
    (k : String) (hrec : s.recording = some k) :
    (handle cfg s e).1 ≠ Cmd.start := by
  obtain ⟨rec, lr, op⟩ := s
  obtain rfl : rec = some k := hrec
  unfold handle
  by_cases h1 : e.transition = Transition.rep
  · simp [h1]
  · simp only [if_neg h1]
    split_ifs <;> simp

theorem handle_stop_of_active_up (cfg : TriggerConfig) (s : TMState) (k : String) (t : ℚ)
    (hrec : s.recording = some k) :
    handle cfg s ⟨k, Transition.up, t⟩ = (Cmd.stop, { s with recording := none }) := by
  obtain ⟨rec, lr, op⟩ := s
  obtain rfl : rec = some k := hrec
  unfold handle
  simp

/-- C1: for every sequence of key events from the initial Idle state, at most
one recording session is active at any point; while the session started by
key `k` is recording, any event for a key other than `k` leaves the recording
state unchanged; and no second `Start` is emitted until the session stops. -/
theorem c1_at_most_one_session (cfg : TriggerConfig) (es : List KeyEvent)
    (s : TMState) (k : String) (e : KeyEvent)
    (hs : runTM cfg initTM es = s) (hrec : s.recording = some k) :
    activeSessions s ≤ 1 ∧
    (e.keycode ≠ k → ((handle cfg s e).2).recording = some k) ∧
    (handle cfg s e).1 ≠ Cmd.start := by
  refine ⟨?_, ?_, ?_⟩
  · obtain ⟨rec, lr, op⟩ := s
    obtain rfl : rec = some k := hrec
    simp [activeSessions]
  · intro hne
    rw [handle_other_key_noop cfg s e k hrec hne]
    exact hrec
  · exact handle_no_start_while_recording cfg s e k hrec

/-- Witness for C1 at the canonical configuration: after a single F16 press
the machine is recording F16, and a Meta press neither starts nor disturbs it. -/
theorem c1_at_most_one_session_witness :
    activeSessions ⟨some "KEY_F16", [], []⟩ ≤ 1 ∧
    ("KEY_LEFTMETA" ≠ "KEY_F16" →
      ((handle canonicalConfig ⟨some "KEY_F16", [], []⟩
        ⟨"KEY_LEFTMETA", Transition.down, 1⟩).2).recording = some "KEY_F16") ∧
    (handle canonicalConfig ⟨some "KEY_F16", [], []⟩
        ⟨"KEY_LEFTMETA", Transition.down, 1⟩).1 ≠ Cmd.start :=
  c1_at_most_one_session canonicalConfig [⟨"KEY_F16", Transition.down, 0⟩]
    ⟨some "KEY_F16", [], []⟩ "KEY_F16" ⟨"KEY_LEFTMETA", Transition.down, 1⟩
    (by with_unfolding_all decide) rfl

/-- C2: for a key bound to the Hold policy, a down event with no active
session always starts a session; the same key's up event always stops it and
returns the state to Idle; an up event of any other key never stops it. -/
theorem c2_hold_policy (cfg : TriggerConfig) (s1 s2 s3 : TMState)
    (k other : String) (t1 t2 t3 : ℚ)
    (hpol : cfg.policy k = TriggerPolicy.hold)
    (h1 : s1.recording = none) (h2 : s2.recording = some k)
    (h3 : s3.recording = some k) (hne : other ≠ k) :
    handle cfg s1 ⟨k, Transition.down, t1⟩ = (Cmd.start, { s1 with recording := some k }) ∧
    handle cfg s2 ⟨k, Transition.up, t2⟩ = (Cmd.stop, { s2 with recording := none }) ∧
    handle cfg s3 ⟨other, Transition.up, t3⟩ = (Cmd.ignore, s3) := by
  refine ⟨?_, ?_, ?_⟩
  · obtain ⟨rec, lr, op⟩ := s1
    obtain rfl : rec = none := h1
    unfold handle
    simp [hpol]
  · exact handle_stop_of_active_up cfg s2 k t2 h2
  · exact handle_other_key_noop cfg s3 ⟨other, Transition.up, t3⟩ k h3 hne

/-- Witness for C2 at the canonical configuration with the Hold key F16. -/
theorem c2_hold_policy_witness :
    handle canonicalConfig ⟨none, [], []⟩ ⟨"KEY_F16", Transition.down, 0⟩ =
      (Cmd.start, ⟨some "KEY_F16", [], []⟩) ∧
    handle canonicalConfig ⟨some "KEY_F16", [], []⟩ ⟨"KEY_F16", Transition.up, 2⟩ =
      (Cmd.stop, ⟨none, [], []⟩) ∧
    handle canonicalConfig ⟨some "KEY_F16", [], []⟩ ⟨"KEY_LEFTMETA", Transition.up, 1⟩ =
      (Cmd.ignore, ⟨some "KEY_F16", [], []⟩) :=
  c2_hold_policy canonicalConfig ⟨none, [], []⟩ ⟨some "KEY_F16", [], []⟩
    ⟨some "KEY_F16", [], []⟩ "KEY_F16" "KEY_LEFTMETA" 0 2 1
    (by with_unfolding_all decide) rfl rfl rfl (by decide)

/-- C3: for a DoubleTap key in a fresh Idle state, the sequence down, up at
`t2`, down at `t3` starts a session exactly when `t3 - t2` is at most the
threshold; with a strictly larger gap no session starts on that pair. -/
theorem c3_double_tap_threshold (cfg : TriggerConfig) (k : String) (s0 : TMState)
    (t1 t2 t3 : ℚ)
    (hpol : cfg.policy k = TriggerPolicy.doubleTap)
    (hidle : s0.recording = none)
    (hfresh : lookupRelease s0 k = none) :
    (t3 - t2 ≤ cfg.threshold →
      (tapSeq cfg k s0 t1 t2 t3).1 = Cmd.start ∧
      (tapSeq cfg k s0 t1 t2 t3).2.recording = some k) ∧
    (cfg.threshold < t3 - t2 →
      (tapSeq cfg k s0 t1 t2 t3).1 = Cmd.ignore ∧
      (tapSeq cfg k s0 t1 t2 t3).2.recording = none) := by
  obtain ⟨rec, lr, op⟩ := s0
  obtain rfl : rec = none := hidle
  have hstep1 : handle cfg ⟨none, lr, op⟩ ⟨k, Transition.down, t1⟩ =
      (Cmd.ignore, ⟨none, lr, k :: op⟩) := by
    unfold handle
    simp [hpol, hfresh]
  have hstep2 : handle cfg ⟨none, lr, k :: op⟩ ⟨k, Transition.up, t2⟩ =
      (Cmd.ignore, ⟨none, (k, t2) :: lr.filter (fun p => p.1 != k),
        op.filter (fun x => x != k)⟩) := by
    unfold handle
    simp [hpol, setRelease]
  unfold tapSeq
  rw [hstep1, hstep2]
  refine ⟨fun hle => ?_, fun hgt => ?_⟩
  · have hle' : t3 ≤ cfg.threshold + t2 := by linarith
    unfold handle
    simp [hpol, lookupRelease, List.find?, clearRelease, hle']
  · have hgt' : ¬ t3 ≤ cfg.threshold + t2 := by intro h; linarith
    unfold handle
    simp [hpol, lookupRelease, List.find?, clearRelease, hgt']

/-- Witness for C3: a Meta double tap with gap exactly the 0.5s threshold
starts a session (closed upper bound). -/
theorem c3_double_tap_threshold_witness :
    ((mkRat 3 5) - (mkRat 1 10) ≤ canonicalConfig.threshold →
      (tapSeq canonicalConfig "KEY_LEFTMETA" initTM 0 (mkRat 1 10) (mkRat 3 5)).1 = Cmd.start ∧
      (tapSeq canonicalConfig "KEY_LEFTMETA" initTM 0 (mkRat 1 10)
        (mkRat 3 5)).2.recording = some "KEY_LEFTMETA") ∧
    (canonicalConfig.threshold < (mkRat 3 5) - (mkRat 1 10) →
      (tapSeq canonicalConfig "KEY_LEFTMETA" initTM 0 (mkRat 1 10) (mkRat 3 5)).1 = Cmd.ignore ∧
      (tapSeq canonicalConfig "KEY_LEFTMETA" initTM 0 (mkRat 1 10)
        (mkRat 3 5)).2.recording = none) :=
  c3_double_tap_threshold canonicalConfig "KEY_LEFTMETA" initTM 0 (mkRat 1 10) (mkRat 3 5)
    (by with_unfolding_all decide) rfl (by with_unfolding_all decide)

/-! Embedding of the `main` event loop of `key_listener.py` (lines 289-448).
The listener state is `recording_process` (`Option` of the capture pid); each
step consumes one evdev key event together with the outcomes of the external
calls that step performs. -/

/-- An evdev key event: keycode plus `keystate` (0 = up, 1 = down, 2 = repeat). -/
structure EvdevEvent where
  keycode : String
  keystate : Nat
deriving DecidableEq, Repr

/-- Outcomes of the external calls one loop iteration can make: whether
`subprocess.Popen` for the capture process succeeds and with which pid,
whether the audio artifact exists and its size, whether verifying it raises,
and how the speech-to-text subprocess ends. -/
structure SessionWorld where
  launchOk : Bool
  launchPid : Nat
  audioExists : Bool
  audioSize : Nat
  verifyRaises : Bool
  sttRunRaises : Bool
  sttExitCode : Nat
deriving DecidableEq, Repr

/-- The uncaught exception a loop iteration can raise. -/
inductive PyExc
  | attributeError
deriving DecidableEq, Repr

/-- Result of one loop iteration: new `recording_process`, the log lines it
appended, and whether the speech-to-text script was dispatched. -/
structure KLStep where
  rp : Option Nat
  logs : List String
  dispatched : Bool
deriving DecidableEq, Repr

/-- One iteration of the event loop body of `key_listener.py` `main`
(lines 307-441): repeats are skipped; `KEY_F16` down with no active process
runs the start branch, where a launch failure is logged and
`recording_process` is reset to `None` (lines 357-359) but the unguarded
`recording_process.pid` access on line 360 then raises `AttributeError`;
`KEY_F16` up with an active process runs the stop branch, which verifies the
artifact (lines 376-384) and skips speech-to-text when it is missing or
empty, and otherwise dispatches the speech-to-text subprocess absorbing its
failures (lines 435-438). All other events are no-ops. -/
def klStep (rp : Option Nat) (e : EvdevEvent) (w : SessionWorld) :
    Except (PyExc × List String) KLStep :=
  if e.keystate = 2 then Except.ok ⟨rp, [], false⟩
  else if e.keycode = "KEY_F16" then
    if e.keystate = 1 ∧ rp = none then
      if w.launchOk then
        Except.ok ⟨some w.launchPid,
          ["Starting audio recording",
           "Recording started with PID " ++ toString w.launchPid], false⟩
      else
        Except.error (PyExc.attributeError,
          ["Starting audio recording", "Failed to launch arecord"])
    else if e.keystate = 0 ∧ rp ≠ none then
      if w.verifyRaises then
        Except.ok ⟨none,
          ["Stopping audio recording",
           "Could not verify recorded audio. Skipping speech-to-text."], false⟩
      else if w.audioExists = false ∨ w.audioSize = 0 then
        Except.ok ⟨none,
          ["Stopping audio recording",
           "No audio captured. Skipping speech-to-text."], false⟩
      else
        Except.ok ⟨none,
          ["Stopping audio recording", "Running speech-to-text"] ++
          (if w.sttRunRaises then ["Could not run speech-to-text"]
           else if w.sttExitCode ≠ 0 then
             ["Speech-to-text failed with exit code " ++ toString w.sttExitCode]
           else []) ++
          ["Speech-to-text completed"], true⟩
    else Except.ok ⟨rp, [], false⟩
  else Except.ok ⟨rp, [], false⟩

/-- Final status of the controller process after consuming a list of events:
either still running (inside `device.read_loop()`) or terminated because an
exception escaped the loop into the outer handler of lines 447-448, after
which `main` returns and the process exits. -/
inductive ControllerStatus
  | running (rp : Option Nat) (logs : List String)
  | terminated (logs : List String)
deriving DecidableEq, Repr

/-- The `main` event loop of `key_listener.py`: feed events one by one; an
uncaught exception is logged by the outer handler and ends the process. -/
def runMain (evs : List (EvdevEvent × SessionWorld)) (rp : Option Nat)
    (logs : List String) : ControllerStatus :=
  match evs with
  | [] => ControllerStatus.running rp logs
  | (e, w) :: rest =>
    match klStep rp e w with
    | Except.ok st => runMain rest st.rp (logs ++ st.logs)
    | Except.error (_, elogs) =>
        ControllerStatus.terminated (logs ++ elogs ++ ["Error: AttributeError"])

/-- A world in which launching the capture process fails. -/
def launchFailWorld : SessionWorld :=
  ⟨false, 0, false, 0, false, false, 0⟩

/-- C4 divergence: when launching the capture process fails on a Start, the
failure is logged and `recording_process` is reset, but the controller does
not keep running: the unguarded pid log on line 360 of `key_listener.py`
raises `AttributeError`, which escapes the event loop and terminates `main`,
contradicting the absorb-all-session-failures policy. -/
theorem c4_launch_failure_kills_controller :
    klStep none ⟨"KEY_F16", 1⟩ launchFailWorld =
      Except.error (PyExc.attributeError,
        ["Starting audio recording", "Failed to launch arecord"]) ∧
    runMain [(⟨"KEY_F16", 1⟩, launchFailWorld)] none [] =
      ControllerStatus.terminated ["Starting audio recording",
        "Failed to launch arecord", "Error: AttributeError"] := by
  constructor
  · rfl
  · rfl

/-- C5: after a Stop, if the recorded artifact is missing or has zero size,
the session is aborted with a logged error, no speech-to-text dispatch
occurs, and the state returns to Idle (`recording_process = None`). -/
theorem c5_empty_artifact_aborts (pid : Nat) (w : SessionWorld)
    (hver : w.verifyRaises = false)
    (hbad : w.audioExists = false ∨ w.audioSize = 0) :
    klStep (some pid) ⟨"KEY_F16", 0⟩ w =
      Except.ok ⟨none, ["Stopping audio recording",
        "No audio captured. Skipping speech-to-text."], false⟩ := by
  unfold klStep
  simp [hver, hbad]

/-- Witness for C5: a zero-size artifact aborts the session and skips dispatch. -/
theorem c5_empty_artifact_aborts_witness :
    klStep (some 7) ⟨"KEY_F16", 0⟩ ⟨true, 7, true, 0, false, false, 0⟩ =
      Except.ok ⟨none, ["Stopping audio recording",
        "No audio captured. Skipping speech-to-text."], false⟩ :=
  c5_empty_artifact_aborts 7 ⟨true, 7, true, 0, false, false, 0⟩ rfl (Or.inr rfl)

/-! Embedding of the transcription dispatch client of `speech_to_text.py`:
`_try_server_transcription` (lines 261-316) and `transcribe_audio`
(lines 319-372). -/

/-- A server response once parsed by `json.loads`: the optional `error` and
`text` fields the client inspects. -/
structure ParsedResp where
  error : Option String
  text : Option String
deriving DecidableEq, Repr

/-- What the client observes on the socket when it attempts the fast path:
a timeout, a refused connection, some other socket exception, an empty
response, a response `json.loads` cannot parse, or a parsed response. -/
inductive ServerWire
  | timeout
  | connRefused
  | otherExc
  | empty
  | unparseable
  | parsed (p : ParsedResp)
deriving DecidableEq, Repr

/-- The world a single dispatch request runs in: whether the backend socket
path exists, what the socket would deliver, and what the local in-process
model invocation would produce. -/
structure DispatchWorld where
  socketExists : Bool
  wire : ServerWire
  localResult : List String
deriving DecidableEq, Repr

/-- Number of socket connection attempts `_try_server_transcription` makes:
zero when the socket path does not exist (line 266 returns immediately),
one otherwise; it never retries. -/
def socketOps (w : DispatchWorld) : Nat :=
  if w.socketExists then 1 else 0

/-- The `_try_server_transcription` function (lines 261-316): `none` means
"server unavailable" (the caller falls back), `some` is a server-produced
segment list. The second component is the log lines written. -/
def tryServer (w : DispatchWorld) : Option (List String) × List String :=
  if w.socketExists = false then (none, [])
  else
    match w.wire with
    | ServerWire.timeout => (none, ["STT server timeout"])
    | ServerWire.connRefused => (none, ["STT server not running"])
    | ServerWire.otherExc => (none, ["STT server connection failed"])
    | ServerWire.empty => (none, ["Empty response from STT server"])
    | ServerWire.unparseable => (none, ["STT server connection failed"])
    | ServerWire.parsed p =>
      match p.error with
      | some msg => (none, ["STT server error: " ++ msg])
      | none =>
        let text := p.text.getD ""
        if text ≠ "" then (some [text], ["Server transcribed: " ++ text])
        else (some [], ["Server returned empty transcription"])

/-- Which of the two dispatch paths produced the result of a request. -/
inductive DispatchPath
  | server
  | local
deriving DecidableEq, Repr

/-- Result of a dispatch request: the segment list, the path that produced
it, and the log lines. -/
structure DispatchOut where
  result : List String
  path : DispatchPath
  logs : List String
deriving DecidableEq, Repr

/-- The `transcribe_audio` function (lines 319-372) with an audio file given,
as invoked from `main`: try the persistent server first; a non-`none` server
result is returned as is, otherwise fall back to the local model exactly once. -/
def transcribe_audio (w : DispatchWorld) : DispatchOut :=
  match tryServer w with
  | (some res, logs1) => ⟨res, DispatchPath.server, logs1⟩
  | (none, logs1) =>
      ⟨w.localResult, DispatchPath.local,
        logs1 ++ ["Falling back to local model (server unavailable)"]⟩

/-- C6: when the backend socket path does not exist, dispatch completes
entirely via the local invocation with zero socket operations (so it can
neither wait nor time out on the socket, and its outcome is independent of
what the socket would have delivered); for every request exactly one path
produces the result and at most one socket attempt is ever made. -/
theorem c6_fallback_no_socket (w : DispatchWorld) (h : w.socketExists = false) :
    (transcribe_audio w).path = DispatchPath.local ∧
    (transcribe_audio w).result = w.localResult ∧
    socketOps w = 0 ∧
    (∀ wire' : ServerWire,
      transcribe_audio ⟨false, wire', w.localResult⟩ = transcribe_audio w) ∧
    (∀ v : DispatchWorld,
      ((transcribe_audio v).path = DispatchPath.server ∨
        (transcribe_audio v).path = DispatchPath.local) ∧ socketOps v ≤ 1) := by
  obtain ⟨se, wire, lr⟩ := w
  obtain rfl : se = false := h
  refine ⟨rfl, rfl, rfl, fun wire' => rfl, fun v => ⟨?_, ?_⟩⟩
  · unfold transcribe_audio
    rcases hts : tryServer v with ⟨r, logs1⟩
    cases r <;> simp
  · unfold socketOps
    split <;> simp

/-- Witness for C6 with the socket absent and a timeout-shaped wire. -/
theorem c6_fallback_no_socket_witness :
    (transcribe_audio ⟨false, ServerWire.timeout, ["hi"]⟩).path = DispatchPath.local ∧
    (transcribe_audio ⟨false, ServerWire.timeout, ["hi"]⟩).result = ["hi"] ∧
    socketOps ⟨false, ServerWire.timeout, ["hi"]⟩ = 0 ∧
    (∀ wire' : ServerWire,
      transcribe_audio ⟨false, wire', ["hi"]⟩ =
        transcribe_audio ⟨false, ServerWire.timeout, ["hi"]⟩) ∧
    (∀ v : DispatchWorld,
      ((transcribe_audio v).path = DispatchPath.server ∨
        (transcribe_audio v).path = DispatchPath.local) ∧ socketOps v ≤ 1) :=
  c6_fallback_no_socket ⟨false, ServerWire.timeout, ["hi"]⟩ rfl

/-- A concrete world where the backend returns an error field and the local
model would recognize the word "hello". -/
def errorFieldWorld : DispatchWorld :=
  ⟨true, ServerWire.parsed ⟨some "boom", none⟩, ["hello"]⟩

/-- C7 counterexample: with a backend error response the error is logged, but
the session does not complete with no output text: the client falls back to
the local invocation and returns its (non-empty) transcription. -/
theorem c7_error_field_counterexample :
    "STT server error: boom" ∈ (transcribe_audio errorFieldWorld).logs ∧
    (transcribe_audio errorFieldWorld).result = ["hello"] ∧
    (transcribe_audio errorFieldWorld).result ≠ [] := by
  decide

/-- Predicate: a loop iteration returned normally (raised no exception). -/
def stepOk (x : Except (PyExc × List String) KLStep) : Bool :=
  match x with
  | Except.ok _ => true
  | Except.error _ => false

/-- C7 amended: when the backend returns a response containing an error
field, the error is reported to the log, the server path yields no result
(it is treated as backend-unavailable), dispatch falls back to the local
invocation and returns its result, and the controller does not crash: the
key-listener stop branch that runs the dispatch subprocess absorbs every
exit code and returns normally. -/
theorem c7_error_field_falls_back (w : DispatchWorld) (p : ParsedResp) (msg : String)
    (hsock : w.socketExists = true) (hw : w.wire = ServerWire.parsed p)
    (herr : p.error = some msg) :
    (tryServer w).1 = none ∧
    ("STT server error: " ++ msg) ∈ (transcribe_audio w).logs ∧
    (transcribe_audio w).path = DispatchPath.local ∧
    (transcribe_audio w).result = w.localResult ∧
    (∀ (pid : Nat) (v : SessionWorld),
      stepOk (klStep (some pid) ⟨"KEY_F16", 0⟩ v) = true) := by
  have hts : tryServer w = (none, ["STT server error: " ++ msg]) := by
    unfold tryServer
    rw [hw]
    simp [hsock, herr]
  refine ⟨by rw [hts], ?_, ?_, ?_, ?_⟩
  · unfold transcribe_audio
    rw [hts]
    simp
  · unfold transcribe_audio
    rw [hts]
  · unfold transcribe_audio
    rw [hts]
  · intro pid v
    unfold klStep
    norm_num
    split_ifs <;> rfl

/-- Witness for the amended C7 at the concrete error-field world. -/
theorem c7_error_field_falls_back_witness :
    (tryServer errorFieldWorld).1 = none ∧
    ("STT server error: " ++ "boom") ∈ (transcribe_audio errorFieldWorld).logs ∧
    (transcribe_audio errorFieldWorld).path = DispatchPath.local ∧
    (transcribe_audio errorFieldWorld).result = errorFieldWorld.localResult ∧
    (∀ (pid : Nat) (v : SessionWorld),
      stepOk (klStep (some pid) ⟨"KEY_F16", 0⟩ v) = true) :=
  c7_error_field_falls_back errorFieldWorld ⟨some "boom", none⟩ "boom" rfl rfl rfl

/-! Embedding of the request handler of `stt_server.py`: `handle_client`
(lines 138-176) and `transcribe` (lines 76-135). -/

/-- What the server reads from an accepted connection, classified by the
outcome of `json.loads` on the received bytes: nothing at all, data that is
not parseable JSON, or a parsed object with its optional `audio_path` field. -/
inductive RecvData
  | empty
  | notJson
  | obj (audioPath : Option String)
deriving DecidableEq, Repr

/-- A server response object: either a success-shaped (text-carrying)
response or an error object. -/
inductive SResp
  | ok (text : String)
  | err (msg : String)
deriving DecidableEq, Repr

/-- Whether a response is an error object. -/
def SResp.isError : SResp → Bool
  | SResp.ok _ => false
  | SResp.err _ => true

/-- The world the server's `transcribe` runs in: which audio files exist on
disk and what the loaded model returns for a given file (an error message
when the transcription call raises). -/
structure ServerEnv where
  fileExists : String → Bool
  modelResult : String → Except String String

/-- The `transcribe` function of `stt_server.py` (lines 76-135): a missing
audio file or a raised exception produces an error object, otherwise the
joined segment text is returned. -/
def stt_transcribe (env : ServerEnv) (path : String) : SResp :=
  if env.fileExists path = false then SResp.err ("Audio file not found: " ++ path)
  else
    match env.modelResult path with
    | Except.error e => SResp.err e
    | Except.ok t => SResp.ok t

/-- The `handle_client` function of `stt_server.py` (lines 138-176): an empty
read returns without replying (line 153); unparseable JSON is answered with
an explicit error object (lines 167-172); a missing or falsy `audio_path`
is answered with an error object (lines 158-159); otherwise `transcribe`
produces the response. -/
def handle_client (env : ServerEnv) (r : RecvData) : Option SResp :=
  match r with
  | RecvData.empty => none
  | RecvData.notJson => some (SResp.err "Invalid JSON")
  | RecvData.obj audioPath =>
    match audioPath with
    | none => some (SResp.err "No audio_path provided")
    | some p =>
      if p = "" then some (SResp.err "No audio_path provided")
      else some (stt_transcribe env p)

/-- Serialization of a response onto the socket (line 165 and line 170):
the JSON object followed by a terminating newline. -/
def wireOf : SResp → String
  | SResp.ok t => "\x7b\"text\": \"" ++ t ++ "\"\x7d\n"
  | SResp.err m => "\x7b\"error\": \"" ++ m ++ "\"\x7d\n"

/-- A wire string is newline-terminated. -/
def newlineTerminated (s : String) : Prop := ∃ t, s = t ++ "\n"

theorem wireOf_newlineTerminated (r : SResp) : newlineTerminated (wireOf r) := by
  cases r with
  | ok t =>
      exact ⟨"\x7b\"text\": \"" ++ t ++ "\"\x7d", by simp [wireOf, String.append_assoc]⟩
  | err m =>
      exact ⟨"\x7b\"error\": \"" ++ m ++ "\"\x7d", by simp [wireOf, String.append_assoc]⟩

/-- C8: a request that is not parseable JSON is answered with an explicit
newline-terminated JSON error object rather than a silent drop; and a
response the client cannot parse is treated exactly like backend-unavailable:
the server path yields nothing and dispatch falls through to the local path
with the same result as when the socket is absent. -/
theorem c8_protocol_errors (env : ServerEnv) (w : DispatchWorld)
    (hs : w.socketExists = true) (hw : w.wire = ServerWire.unparseable) :
    handle_client env RecvData.notJson = some (SResp.err "Invalid JSON") ∧
    newlineTerminated (wireOf (SResp.err "Invalid JSON")) ∧
    (tryServer w).1 = none ∧
    (transcribe_audio w).path = DispatchPath.local ∧
    (transcribe_audio w).result =
      (transcribe_audio ⟨false, w.wire, w.localResult⟩).result := by
  have hts : tryServer w = (none, ["STT server connection failed"]) := by
    unfold tryServer
    rw [hw]
    simp [hs]
  refine ⟨rfl, wireOf_newlineTerminated _, by rw [hts], ?_, ?_⟩
  · unfold transcribe_audio
    rw [hts]
  · unfold transcribe_audio
    rw [hts]
    rfl

/-- Witness for C8 at a concrete environment and world. -/
theorem c8_protocol_errors_witness :
    handle_client ⟨fun _ => false, fun _ => Except.error "e"⟩ RecvData.notJson =
      some (SResp.err "Invalid JSON") ∧
    newlineTerminated (wireOf (SResp.err "Invalid JSON")) ∧
    (tryServer ⟨true, ServerWire.unparseable, ["hi"]⟩).1 = none ∧
    (transcribe_audio ⟨true, ServerWire.unparseable, ["hi"]⟩).path = DispatchPath.local ∧
    (transcribe_audio ⟨true, ServerWire.unparseable, ["hi"]⟩).result =
      (transcribe_audio ⟨false, ServerWire.unparseable, ["hi"]⟩).result :=
  c8_protocol_errors ⟨fun _ => false, fun _ => Except.error "e"⟩
    ⟨true, ServerWire.unparseable, ["hi"]⟩ rfl rfl

/-- C9: a parsed response with no populated text field and no error field is
an empty-but-successful transcription: the client returns an empty result via
the server path and does not fall back to the local invocation — unlike the
backend-unavailable condition, which does fall back. -/
theorem c9_empty_success (w : DispatchWorld) (p : ParsedResp)
    (hs : w.socketExists = true) (hw : w.wire = ServerWire.parsed p)
    (herr : p.error = none) (htext : p.text = none ∨ p.text = some "") :
    (tryServer w).1 = some [] ∧
    (transcribe_audio w).result = [] ∧
    (transcribe_audio w).path = DispatchPath.server ∧
    (transcribe_audio ⟨false, w.wire, w.localResult⟩).path = DispatchPath.local := by
  have hts : tryServer w = (some [], ["Server returned empty transcription"]) := by
    unfold tryServer
    rw [hw]
    rcases htext with h | h <;> simp [hs, herr, h]
  refine ⟨by rw [hts], ?_, ?_, rfl⟩
  · unfold transcribe_audio
    rw [hts]
  · unfold transcribe_audio
    rw [hts]

/-- Witness for C9: a response with absent text and no error yields an empty
server-path result. -/
theorem c9_empty_success_witness :
    (tryServer ⟨true, ServerWire.parsed ⟨none, none⟩, ["hi"]⟩).1 = some [] ∧
    (transcribe_audio ⟨true, ServerWire.parsed ⟨none, none⟩, ["hi"]⟩).result = [] ∧
    (transcribe_audio ⟨true, ServerWire.parsed ⟨none, none⟩, ["hi"]⟩).path =
      DispatchPath.server ∧
    (transcribe_audio ⟨false, ServerWire.parsed ⟨none, none⟩, ["hi"]⟩).path =
      DispatchPath.local :=
  c9_empty_success ⟨true, ServerWire.parsed ⟨none, none⟩, ["hi"]⟩ ⟨none, none⟩
    rfl rfl rfl (Or.inl rfl)

/-- C10: a valid JSON request lacking an `audio_path` field, or naming a file
that does not exist, is answered with a newline-terminated JSON error object
and never with a success-shaped (text-carrying) response. -/
theorem c10_bad_request_error_reply (env : ServerEnv) (ap : Option String)
    (h : ap = none ∨ ap = some "" ∨
      ∃ p, ap = some p ∧ env.fileExists p = false) :
    ∃ resp, handle_client env (RecvData.obj ap) = some resp ∧
      resp.isError = true ∧ newlineTerminated (wireOf resp) := by
  rcases h with rfl | rfl | ⟨p, rfl, hex⟩
  · exact ⟨SResp.err "No audio_path provided", rfl, rfl,
      wireOf_newlineTerminated _⟩
  · exact ⟨SResp.err "No audio_path provided", rfl, rfl,
      wireOf_newlineTerminated _⟩
  · by_cases hp : p = ""
    · subst hp
      exact ⟨SResp.err "No audio_path provided", rfl, rfl,
        wireOf_newlineTerminated _⟩
    · refine ⟨SResp.err ("Audio file not found: " ++ p), ?_, rfl,
        wireOf_newlineTerminated _⟩
      unfold handle_client stt_transcribe
      simp [hp, hex]

/-- Witness for C10: a request naming a missing file gets an error reply. -/
theorem c10_bad_request_error_reply_witness :
    ∃ resp, handle_client ⟨fun _ => false, fun _ => Except.error "e"⟩
        (RecvData.obj (some "/tmp/missing.wav")) = some resp ∧
      resp.isError = true ∧ newlineTerminated (wireOf resp) :=
  c10_bad_request_error_reply ⟨fun _ => false, fun _ => Except.error "e"⟩
    (some "/tmp/missing.wav") (Or.inr (Or.inr ⟨"/tmp/missing.wav", rfl, rfl⟩))

end STT
